import Mathlib

/-!
Shallow embedding of `src/client/src/contexts/AuthContext.js`: the
authentication state container (reducer), the durable-storage token slot
(the localStorage "token" key), the derived queries `hasRole` and
`canAccess`, and the asynchronous actions `login` and `updateProfile`
modelled as pure functions of the outcome of the API call.

JavaScript `null`/`undefined` optional values become `Option`; the
`localStorage.setItem`/`removeItem` side effects of the reducer become
explicit passing of the storage slot, so the reducer maps
`(storage, state, action)` to `(storage, state)`.
-/

namespace AuthContext

/-- A user record. Only `userType` is ever inspected by this module
(`hasRole`, `canAccess`); all other fields are opaque and irrelevant to the
claims, so the embedding keeps just `userType`. -/
structure User where
  userType : String
deriving DecidableEq, Repr

/-- The auth state record held by the reducer (`initialState` shape in the
source): `user`, `token`, `isAuthenticated`, `loading`, `error`. -/
structure AuthState where
  user : Option User
  token : Option String
  isAuthenticated : Bool
  loading : Bool
  error : Option String
deriving DecidableEq, Repr

/-- The durable-storage token slot, read and written by the source through
localStorage under the key "token": `none` when the slot is absent. -/
abbrev Storage := Option String

/-- Actions dispatched to the reducer. Each constructor carries the payload
its dispatch sites pass: `{token, user}` for the success events, the user
record for `USER_LOADED`, the message string for the failure events, the
boolean for `SET_LOADING`. `unknown ty` stands for any action whose `type`
string falls through to the reducer's `default` case. -/
inductive AuthAction where
  | loginSuccess (token : String) (user : User)
  | registerSuccess (token : String) (user : User)
  | userLoaded (user : User)
  | loginFail (message : String)
  | registerFail (message : String)
  | authError (message : String)
  | logout
  | clearErrors
  | setLoading (b : Bool)
  | unknown (ty : String)
deriving DecidableEq, Repr

/-- The `type` string of each action, as in the `AUTH_ACTIONS` table of the
source. -/
def AuthAction.type : AuthAction → String
  | .loginSuccess _ _ => "LOGIN_SUCCESS"
  | .registerSuccess _ _ => "REGISTER_SUCCESS"
  | .userLoaded _ => "USER_LOADED"
  | .loginFail _ => "LOGIN_FAIL"
  | .registerFail _ => "REGISTER_FAIL"
  | .authError _ => "AUTH_ERROR"
  | .logout => "LOGOUT"
  | .clearErrors => "CLEAR_ERRORS"
  | .setLoading _ => "SET_LOADING"
  | .unknown ty => ty

/-- The nine action-type strings listed in `AUTH_ACTIONS`. -/
def recognizedTypes : List String :=
  ["LOGIN_SUCCESS", "LOGIN_FAIL", "REGISTER_SUCCESS", "REGISTER_FAIL",
   "LOGOUT", "USER_LOADED", "AUTH_ERROR", "CLEAR_ERRORS", "SET_LOADING"]

/-- The reducer `authReducer` of the source, with the `localStorage`
mutations made explicit: it maps the durable-storage slot, the state and an
action to the new slot and state. Branches follow the `switch` cases
line by line. -/
def authReducer (storage : Storage) (state : AuthState) :
    AuthAction → Storage × AuthState
  | .loginSuccess t u | .registerSuccess t u =>
      (some t,
       { state with token := some t, user := some u,
                    isAuthenticated := true, loading := false, error := none })
  | .userLoaded u =>
      (storage,
       { state with user := some u, isAuthenticated := true, loading := false })
  | .loginFail m | .registerFail m | .authError m =>
      (none,
       { state with token := none, user := none,
                    isAuthenticated := false, loading := false, error := some m })
  | .logout =>
      (none,
       { state with token := none, user := none,
                    isAuthenticated := false, loading := false, error := none })
  | .clearErrors => (storage, { state with error := none })
  | .setLoading b => (storage, { state with loading := b })
  | .unknown _ => (storage, state)

/-- The `initialState` of the source: `user` absent, `token` read from the
durable-storage slot, `isAuthenticated := false`, `loading := true`,
`error := none`. -/
def initialState (storedToken : Storage) : AuthState :=
  { user := none, token := storedToken, isAuthenticated := false,
    loading := true, error := none }

/-- Folding a sequence of dispatched actions through the reducer. -/
def runEvents (storage : Storage) (state : AuthState) :
    List AuthAction → Storage × AuthState
  | [] => (storage, state)
  | a :: rest =>
      let p := authReducer storage state a
      runEvents p.1 p.2 rest

/-- `hasRole` of the source: `state.user && state.user.userType === role`,
read as a boolean (the JavaScript value `null` is falsy). -/
def hasRole (state : AuthState) (role : String) : Bool :=
  match state.user with
  | none => false
  | some u => u.userType == role

/-- `canAccess` of the source. Returns `none` for the JavaScript
`TypeError` raised by `state.user.userType` when `isAuthenticated` is true
but `user` is absent. -/
def canAccess (state : AuthState) (allowedRoles : List String) : Option Bool :=
  if state.isAuthenticated = false then some false
  else
    match state.user with
    | none => none
    | some u => some (allowedRoles.contains u.userType)

/-- Outcome of an external API call as seen by the try/catch of an action:
either the response data, or a failure carrying
`error.response?.data?.message` (`none` when the server sent no message). -/
inductive ApiResult (α : Type) where
  | ok (data : α)
  | err (message : Option String)
deriving DecidableEq, Repr

/-- The `res.data` body of a successful login/register response. -/
structure LoginData where
  token : String
  user : User
deriving DecidableEq, Repr

/-- The value `login` returns to its caller: `{success:true, user}` or
`{success:false, message}`. -/
inductive LoginResult where
  | success (user : User)
  | failure (message : String)
deriving DecidableEq, Repr

/-- The `login` action of the source as a pure function of the API
outcome: dispatch `SET_LOADING true`, then on success dispatch
`LOGIN_SUCCESS` with the response body and return `{success:true, user}`;
on failure dispatch `LOGIN_FAIL` with the extracted message
(`response.data.message` or the default `"Login failed"`) and return
`{success:false, message}`. Total: every failure is converted to a
`LoginResult`, none propagates. -/
def login (storage : Storage) (state : AuthState) (outcome : ApiResult LoginData) :
    Storage × AuthState × LoginResult :=
  let p := authReducer storage state (.setLoading true)
  match outcome with
  | .ok d =>
      let q := authReducer p.1 p.2 (.loginSuccess d.token d.user)
      (q.1, q.2, .success d.user)
  | .err m =>
      let msg := m.getD "Login failed"
      let q := authReducer p.1 p.2 (.loginFail msg)
      (q.1, q.2, .failure msg)

/-- The value `updateProfile` returns to its caller: `{success:true}` or
`{success:false, message}`. -/
inductive ProfileResult where
  | success
  | failure (message : String)
deriving DecidableEq, Repr

/-- The `updateProfile` action of the source as a pure function of the API
outcome: on success dispatch `USER_LOADED` with the returned user and
return `{success:true}`; on failure dispatch nothing and return
`{success:false, message}` with the extracted message or the default
`"Profile update failed"`. -/
def updateProfile (storage : Storage) (state : AuthState) (outcome : ApiResult User) :
    Storage × AuthState × ProfileResult :=
  match outcome with
  | .ok u =>
      let q := authReducer storage state (.userLoaded u)
      (q.1, q.2, .success)
  | .err m => (storage, state, .failure (m.getD "Profile update failed"))

/-! Helper lemmas. -/

/-- One reducer step preserves the equality between `isAuthenticated` and
presence of `user`. -/
lemma step_auth_eq_userIsSome (storage : Storage) (state : AuthState)
    (a : AuthAction) (h : state.isAuthenticated = state.user.isSome) :
    (authReducer storage state a).2.isAuthenticated =
      (authReducer storage state a).2.user.isSome := by
  cases a <;> simp [authReducer] <;> exact h

/-- Running any event sequence preserves the equality between
`isAuthenticated` and presence of `user`. -/
lemma runEvents_auth_eq_userIsSome (evts : List AuthAction) :
    ∀ storage state, state.isAuthenticated = state.user.isSome →
      (runEvents storage state evts).2.isAuthenticated =
        (runEvents storage state evts).2.user.isSome := by
  induction evts with
  | nil => intro storage state h; exact h
  | cons a rest ih =>
      intro storage state h
      exact ih (authReducer storage state a).1 (authReducer storage state a).2
        (step_auth_eq_userIsSome storage state a h)

/-! Claim theorems. -/

/-- C1 counterexample: starting from the initial state with no stored token
and applying the single event USER_LOADED, the resulting state has
`isAuthenticated = true` although `token` is absent, so `isAuthenticated`
is not equivalent to the conjunction of `user` present and `token`
present. -/
theorem C1_counterexample :
    ¬ (((runEvents none (initialState none)
          [AuthAction.userLoaded { userType := "resident" }]).2.isAuthenticated = true) ↔
       ((runEvents none (initialState none)
          [AuthAction.userLoaded { userType := "resident" }]).2.user.isSome = true ∧
        (runEvents none (initialState none)
          [AuthAction.userLoaded { userType := "resident" }]).2.token.isSome = true)) := by
  decide

/-- C1 (amended): for every stored token and every sequence of reducer
events applied to the initial state, the resulting state has
`isAuthenticated = true` if and only if `user` is present; `token` may be
absent while authenticated, because USER_LOADED sets `isAuthenticated`
without touching `token`. -/
theorem C1_auth_iff_user_present (storedToken : Storage) (evts : List AuthAction) :
    (runEvents storedToken (initialState storedToken) evts).2.isAuthenticated =
      (runEvents storedToken (initialState storedToken) evts).2.user.isSome :=
  runEvents_auth_eq_userIsSome evts storedToken (initialState storedToken) rfl

/-- C2: applying LOGIN_FAIL with message payload "bad creds" to any prior
storage and state yields `token = none`, `user = none`,
`isAuthenticated = false`, `loading = false`, `error = some "bad creds"`,
and the durable-storage token slot removed. -/
theorem C2_loginFail_bad_creds (storage : Storage) (state : AuthState) :
    authReducer storage state (AuthAction.loginFail "bad creds") =
      (none,
       { user := none, token := none, isAuthenticated := false,
         loading := false, error := some "bad creds" }) := rfl

/-- C3: LOGOUT applied to any authenticated state clears `token`, `user`
and `error` and sets `isAuthenticated = false`; and for every storage and
state, applying LOGOUT twice yields the same storage and state as applying
it once. -/
theorem C3_logout_clears_and_idempotent (storage : Storage) (state : AuthState) :
    (state.isAuthenticated = true →
      (authReducer storage state AuthAction.logout).2.token = none ∧
      (authReducer storage state AuthAction.logout).2.user = none ∧
      (authReducer storage state AuthAction.logout).2.error = none ∧
      (authReducer storage state AuthAction.logout).2.isAuthenticated = false) ∧
    authReducer (authReducer storage state AuthAction.logout).1
        (authReducer storage state AuthAction.logout).2 AuthAction.logout =
      authReducer storage state AuthAction.logout :=
  ⟨fun _ => ⟨rfl, rfl, rfl, rfl⟩, rfl⟩

/-- C3 witness: the theorem instantiated at a concrete authenticated
state. -/
theorem C3_logout_witness :
    ((authReducer (some "tok")
        { user := some { userType := "admin" }, token := some "tok",
          isAuthenticated := true, loading := false, error := some "old" }
        AuthAction.logout).2.token = none ∧
     (authReducer (some "tok")
        { user := some { userType := "admin" }, token := some "tok",
          isAuthenticated := true, loading := false, error := some "old" }
        AuthAction.logout).2.user = none ∧
     (authReducer (some "tok")
        { user := some { userType := "admin" }, token := some "tok",
          isAuthenticated := true, loading := false, error := some "old" }
        AuthAction.logout).2.error = none ∧
     (authReducer (some "tok")
        { user := some { userType := "admin" }, token := some "tok",
          isAuthenticated := true, loading := false, error := some "old" }
        AuthAction.logout).2.isAuthenticated = false) :=
  (C3_logout_clears_and_idempotent (some "tok")
    { user := some { userType := "admin" }, token := some "tok",
      isAuthenticated := true, loading := false, error := some "old" }).1 rfl

/-- C4: for every storage and state, CLEAR_ERRORS sets `error` to `none`,
leaves `user`, `token`, `isAuthenticated` and `loading` unchanged, and
leaves the durable-storage slot untouched. -/
theorem C4_clearErrors_frame (storage : Storage) (state : AuthState) :
    (authReducer storage state AuthAction.clearErrors).1 = storage ∧
    (authReducer storage state AuthAction.clearErrors).2.error = none ∧
    (authReducer storage state AuthAction.clearErrors).2.user = state.user ∧
    (authReducer storage state AuthAction.clearErrors).2.token = state.token ∧
    (authReducer storage state AuthAction.clearErrors).2.isAuthenticated =
      state.isAuthenticated ∧
    (authReducer storage state AuthAction.clearErrors).2.loading = state.loading :=
  ⟨rfl, rfl, rfl, rfl, rfl, rfl⟩

/-- C5: for every storage, state and action whose type string is not one of
the nine recognized action types, the reducer returns the storage and state
unchanged. -/
theorem C5_unknown_action_identity (storage : Storage) (state : AuthState)
    (a : AuthAction) (h : a.type ∉ recognizedTypes) :
    authReducer storage state a = (storage, state) := by
  cases a <;> first | rfl | simp [AuthAction.type, recognizedTypes] at h

/-- C5 witness: a concrete unrecognized action leaves a concrete storage
and state unchanged. -/
theorem C5_unknown_action_witness :
    AuthAction.type (AuthAction.unknown "SOME_OTHER_ACTION") ∉ recognizedTypes ∧
    authReducer (some "t") (initialState (some "t"))
        (AuthAction.unknown "SOME_OTHER_ACTION") =
      (some "t", initialState (some "t")) :=
  ⟨by decide,
   C5_unknown_action_identity (some "t") (initialState (some "t"))
     (AuthAction.unknown "SOME_OTHER_ACTION") (by decide)⟩

/-- C6: for every state and role, `hasRole role` is true if and only if
`user` is present with `userType` equal to `role`; and when `user` is
absent, `hasRole role` is false. -/
theorem C6_hasRole_spec (state : AuthState) (role : String) :
    (hasRole state role = true ↔
      ∃ u, state.user = some u ∧ u.userType = role) ∧
    (state.user = none → hasRole state role = false) := by
  cases hu : state.user with
  | none => simp [hasRole, hu]
  | some u => simp [hasRole, hu]

/-- C6 witness: at a concrete state with `user` absent, `hasRole "admin"`
is false. -/
theorem C6_hasRole_witness :
    hasRole
      { user := none, token := some "t", isAuthenticated := false,
        loading := true, error := none } "admin" = false :=
  (C6_hasRole_spec
    { user := none, token := some "t", isAuthenticated := false,
      loading := true, error := none } "admin").2 rfl

/-- C7: for every state and list of allowed roles, if `isAuthenticated` is
false then `canAccess` returns false regardless of `user`; and if
`isAuthenticated` is true and `user` is present, `canAccess` returns true
if and only if the userType of the user is a member of the allowed
roles. -/
theorem C7_canAccess_spec (state : AuthState) (roles : List String) :
    (state.isAuthenticated = false → canAccess state roles = some false) ∧
    (∀ u, state.isAuthenticated = true → state.user = some u →
      (canAccess state roles = some true ↔ u.userType ∈ roles)) := by
  constructor
  · intro h
    simp [canAccess, h]
  · intro u h hu
    simp [canAccess, h, hu]

/-- C7 witness: the theorem instantiated at concrete states, one
unauthenticated with a user record still present, one authenticated as an
admin. -/
theorem C7_canAccess_witness :
    canAccess
      { user := some { userType := "admin" }, token := none,
        isAuthenticated := false, loading := false, error := none }
      ["admin", "staff"] = some false ∧
    canAccess
      { user := some { userType := "admin" }, token := some "t",
        isAuthenticated := true, loading := false, error := none }
      ["admin", "staff"] = some true :=
  ⟨(C7_canAccess_spec
      { user := some { userType := "admin" }, token := none,
        isAuthenticated := false, loading := false, error := none }
      ["admin", "staff"]).1 rfl,
   ((C7_canAccess_spec
      { user := some { userType := "admin" }, token := some "t",
        isAuthenticated := true, loading := false, error := none }
      ["admin", "staff"]).2 { userType := "admin" } rfl rfl).mpr (by decide)⟩

/-- C8: `login` is a total function of the API outcome. On failure it
returns the result value `failure msg` where `msg` is the server message or
the default "Login failed", and the dispatched LOGIN_FAIL leaves
`error = some msg`, `token = none`, `isAuthenticated = false` and the
durable-storage slot removed; on success it returns `success user`. -/
theorem C8_login_never_throws (storage : Storage) (state : AuthState) :
    (∀ m, (login storage state (ApiResult.err m)).2.2 =
        LoginResult.failure (m.getD "Login failed") ∧
      (login storage state (ApiResult.err m)).2.1.error =
        some (m.getD "Login failed") ∧
      (login storage state (ApiResult.err m)).2.1.token = none ∧
      (login storage state (ApiResult.err m)).2.1.isAuthenticated = false ∧
      (login storage state (ApiResult.err m)).1 = none) ∧
    (∀ d, (login storage state (ApiResult.ok d)).2.2 =
        LoginResult.success d.user) :=
  ⟨fun _ => ⟨rfl, rfl, rfl, rfl, rfl⟩, fun _ => rfl⟩

/-- C9 counterexample: applying USER_LOADED to a state whose `error` field
is set leaves `error` set, contradicting the claim that a USER_LOADED
success event clears `error`. -/
theorem C9_counterexample :
    (authReducer (some "t")
        { user := none, token := some "t", isAuthenticated := false,
          loading := true, error := some "boom" }
        (AuthAction.userLoaded { userType := "resident" })).2.error ≠ none := by
  decide

/-- C9 (amended): USER_LOADED leaves `error` exactly as it was; `error` is
cleared on the LOGIN_SUCCESS and REGISTER_SUCCESS events instead. -/
theorem C9_error_handling (storage : Storage) (state : AuthState) (u : User) :
    (authReducer storage state (AuthAction.userLoaded u)).2.error = state.error ∧
    ∀ t u2,
      (authReducer storage state (AuthAction.loginSuccess t u2)).2.error = none ∧
      (authReducer storage state (AuthAction.registerSuccess t u2)).2.error = none :=
  ⟨rfl, fun _ _ => ⟨rfl, rfl⟩⟩

/-- C10: a successful `updateProfile` dispatches USER_LOADED with the
returned user, so the new state has `isAuthenticated = true`,
`loading = false`, the returned user, and `token` unchanged — including
from the post-LOGOUT state, where `token` stays absent while
`isAuthenticated` becomes true, and the call returns `success`. -/
theorem C10_updateProfile_success (storage : Storage) (state : AuthState) (u : User) :
    (updateProfile storage state (ApiResult.ok u)).2.1.isAuthenticated = true ∧
    (updateProfile storage state (ApiResult.ok u)).2.1.loading = false ∧
    (updateProfile storage state (ApiResult.ok u)).2.1.token = state.token ∧
    (updateProfile storage state (ApiResult.ok u)).2.1.user = some u ∧
    (updateProfile storage state (ApiResult.ok u)).2.2 = ProfileResult.success ∧
    (updateProfile (authReducer storage state AuthAction.logout).1
        (authReducer storage state AuthAction.logout).2
        (ApiResult.ok u)).2.1.isAuthenticated = true ∧
    (updateProfile (authReducer storage state AuthAction.logout).1
        (authReducer storage state AuthAction.logout).2
        (ApiResult.ok u)).2.1.token = none :=
  ⟨rfl, rfl, rfl, rfl, rfl, rfl, rfl⟩

end AuthContext
